import Mathlib

/-!
Verification of the frame-selection / detection-fusion / hazard-classification
pipeline of the AIVideoAnalyzer repository
(scripts/analyze_frames_openrouter.py and scripts/extract_frames_opencv.py).

The Python source is shallowly embedded here:

* pure functions become Lean functions over exact rationals;
* pixel-level routines supplied by OpenCV / scikit-image / the YOLO models
  (image decoding, SSIM, histogram correlation, template matching, motion
  contours, inference) are external capabilities of the source and enter the
  embedding as explicit oracle inputs;
* side effects (file reads, the OpenRouter network call, cv2.imwrite) are
  modelled by explicit environment records, and Python exceptions by the
  corresponding early-return values, exactly following the try/except
  structure of the source.

Floating point arithmetic of the source is idealised by exact rationals.
Where the source compares a Euclidean distance (a square root) against a
threshold, the embedding uses the equivalent square-free comparison; this is
noted at the definition.
-/

namespace AIVideoAnalyzer

/- The rational arithmetic of Batteries is marked irreducible, which blocks
only elaboration-time evaluation, not the kernel; concrete evaluation of the
embedded functions below relies on it reducing. -/
attribute [local semireducible] Rat.mul Rat.add Rat.sub Rat.inv Rat.ofScientific

/-! ### String primitives

The Lean core string functions are compiled by well-founded recursion and do
not evaluate inside proofs, so the Python string primitives used by the
source are re-implemented structurally over character lists, with Python
semantics. -/

/-- Python `s.lower()`. -/
def pyLower (s : String) : String := String.mk (s.toList.map Char.toLower)

/-- Python `s.upper()`. -/
def pyUpper (s : String) : String := String.mk (s.toList.map Char.toUpper)

/-- Python `s.strip()`: remove leading and trailing whitespace. -/
def pyStrip (s : String) : String :=
  String.mk (((s.toList.dropWhile Char.isWhitespace).reverse.dropWhile
    Char.isWhitespace).reverse)

/-- Python `s.replace(a, b)` for a one-character pattern and replacement
(the source only replaces the one-character string "-" by ","); for
one-character patterns the non-overlapping replacement is a character map. -/
def replaceChar (a b : Char) (s : String) : String :=
  String.mk (s.toList.map (fun c => if c = a then b else c))

/-- Python `s.split(sep)` for a one-character separator, on character
lists; splitting the empty string yields one empty field. -/
def splitOnCharList (sep : Char) (l : List Char) : List (List Char) :=
  l.foldr (fun c acc =>
    if c = sep then [] :: acc else (c :: acc.headD []) :: acc.tail) [[]]

/-- Python `s.split(sep)` for a one-character separator. -/
def splitOnChar (sep : Char) (s : String) : List String :=
  (splitOnCharList sep s.toList).map String.mk

/-- Python `s.startswith(p)`. -/
def pyStartsWith (s p : String) : Bool := p.toList.isPrefixOf s.toList

/-- Python `s.endswith(p)`. -/
def pyEndsWith (s p : String) : Bool := p.toList.reverse.isPrefixOf s.toList.reverse

/-- Parse a nonempty all-digit character list as a natural number. -/
def digitsToNat? (l : List Char) : Option Nat :=
  if l ≠ [] ∧ l.all Char.isDigit then
    some (l.foldl (fun a c => a * 10 + (c.toNat - 48)) 0)
  else none

/-- Python `int(s)`: optional surrounding whitespace, optional single sign,
then decimal digits; anything else raises ValueError, modelled as `none`.
(Python additionally allows underscores between digits; the source never
feeds such tokens a value in range, so they are not modelled.) -/
def pyInt? (s : String) : Option Int :=
  match (pyStrip s).toList with
  | '+' :: rest => (digitsToNat? rest).map Int.ofNat
  | '-' :: rest => (digitsToNat? rest).map (fun n => -(n : Int))
  | l => (digitsToNat? l).map Int.ofNat

/-- Python `s[n:]`. -/
def pyDrop (s : String) (n : Nat) : String := String.mk (s.toList.drop n)

/-- Python `s[:n]` for nonnegative `n`. -/
def pyTake (s : String) (n : Nat) : String := String.mk (s.toList.take n)

/-- Python `s[0]` on a nonempty string (the source checks the length
first). -/
def pyFront (s : String) : Char := s.toList.headD (Char.ofNat 0)

/-- Lowercase membership test mirroring Python's `kw in s` substring operator
(contiguous substring containment). -/
def strContains (s kw : String) : Bool :=
  let sl := s.toList
  let kl := kw.toList
  (List.range (sl.length + 1)).any (fun i => kl.isPrefixOf (sl.drop i))

/-- Mirrors Python's `any(item in class_lower for item in items)`. -/
def anyKeyword (s : String) (kws : List String) : Bool :=
  kws.any (fun kw => strContains s kw)

/-- A normalized bounding box, the `bbox_position` dictionary of the source
with keys x, y, w, h. -/
structure Box where
  x : ℚ
  y : ℚ
  w : ℚ
  h : ℚ
deriving DecidableEq, Repr

/-- One YOLO detection record as built in `detect_objects_with_yolo`
(analyze_frames_openrouter.py lines 129-137). -/
structure Detection where
  class_name : String
  confidence : ℚ
  bbox : Box
  safety_category : String
  potential_hazard : Bool
  model_used : String
  detection_id : String
deriving DecidableEq, Repr

/-- Center x coordinate of a box (`bbox['x'] + bbox['w']/2`). -/
def Box.cx (b : Box) : ℚ := b.x + b.w / 2

/-- Center y coordinate of a box (`bbox['y'] + bbox['h']/2`). -/
def Box.cy (b : Box) : ℚ := b.y + b.h / 2

/-- The squared Euclidean distance between the centers of two boxes.
The source computes `((cx1-cx2)**2 + (cy1-cy2)**2)**0.5`, i.e. the square
root of this quantity. -/
def centerDistSq (a b : Box) : ℚ :=
  (a.cx - b.cx) ^ 2 + (a.cy - b.cy) ^ 2

/-- Embeds `distance < distance_threshold` of `remove_duplicate_detections`
(line 179).  Since `distance = sqrt (centerDistSq a b)` is the nonnegative
square root, `sqrt d < t` holds iff `0 ≤ t ∧ d < t * t`; the embedding uses
that square-free form to stay inside the rationals. -/
def centerDistLt (a b : Box) (t : ℚ) : Bool :=
  decide (0 ≤ t) && decide (centerDistSq a b < t * t)

/-- One step of the accepted-list scan of `remove_duplicate_detections`
(lines 165-188): the incoming detection is checked against previously
accepted detections in order; the first accepted detection with the same
class and center distance below the threshold decides the outcome (replace
it when the newcomer has strictly higher confidence, else drop the
newcomer); with no such match the newcomer is appended. -/
def dedupStep (t : ℚ) (unique : List Detection) (d : Detection) : List Detection :=
  match unique.find? (fun e =>
      d.class_name == e.class_name && centerDistLt d.bbox e.bbox t) with
  | some e =>
      if d.confidence > e.confidence then (unique.erase e) ++ [d] else unique
  | none => unique ++ [d]

/-- Embeds `remove_duplicate_detections` (analyze_frames_openrouter.py lines
156-190).  Processes detections in arrival order, accumulating the list of
accepted detections. -/
def remove_duplicate_detections (detections : List Detection)
    (distance_threshold : ℚ := 1/10) : List Detection :=
  detections.foldl (dedupStep distance_threshold) []

/-- The fixed category keyword table of `classify_object_for_safety`
(lines 196-205), in source declaration order. -/
def safety_categories : List (String × List String) :=
  [("vehicle", ["car", "truck", "bus", "motorcycle", "bicycle"]),
   ("person", ["person"]),
   ("equipment", ["chair", "desk", "table", "laptop", "monitor", "keyboard"]),
   ("container", ["bottle", "cup", "bowl", "box", "suitcase", "handbag", "backpack"]),
   ("obstacles", ["bench", "potted plant", "vase", "sports ball"]),
   ("waste", ["trash", "recycling", "garbage"]),
   ("warning", ["stop sign", "traffic light", "fire hydrant"]),
   ("structure", ["door", "window", "wall"])]

/-- Embeds `classify_object_for_safety` (lines 192-212): first matching category
wins, default "other". -/
def classify_object_for_safety (class_name : String) : String :=
  let cl := pyLower class_name
  match safety_categories.find? (fun p => anyKeyword cl p.2) with
  | some p => p.1
  | none => "other"

/-- Embeds `get_adaptive_confidence_threshold` (lines 214-234): three keyword tiers
checked in order, default 0.30.  The `scene_context` parameter of the source
is never read. -/
def get_adaptive_confidence_threshold (class_name : String)
    (_scene_context : String := "warehouse") : ℚ :=
  let cl := pyLower class_name
  if anyKeyword cl ["car", "truck", "forklift", "vehicle", "bicycle"] then 1/5
  else if anyKeyword cl ["table", "desk", "cabinet", "ladder", "cart", "box", "container"] then 1/4
  else if anyKeyword cl ["person", "chair", "bag", "bottle", "phone"] then 7/20
  else 3/10

/-- The fixed hazard keyword groups of `is_critical_safety_hazard`
(lines 250-262), in source declaration order. -/
def critical_hazards : List (String × List String) :=
  [("vehicles", ["car", "truck", "bus", "motorcycle", "bicycle", "motorbike"]),
   ("blocking_furniture", ["table", "desk", "cabinet", "shelf", "couch", "wardrobe"]),
   ("large_containers", ["box", "container", "barrel", "bin", "crate", "pallet"]),
   ("equipment", ["ladder", "cart", "trolley", "machine", "forklift"])]

/-- The pathway-zone test of `is_critical_safety_hazard` (lines 268-272):
the box center must satisfy 0.2 ≤ cx ≤ 0.8 and 0.3 ≤ cy ≤ 0.9. -/
def inPathway (bbox : Box) : Bool :=
  decide (1/5 ≤ bbox.cx) && decide (bbox.cx ≤ 4/5) &&
  decide (3/10 ≤ bbox.cy) && decide (bbox.cy ≤ 9/10)

/-- Embeds `is_critical_safety_hazard` (lines 236-275).  The effective threshold is
the maximum of the caller-supplied base floor and the adaptive per-class
threshold; confidence below it means not a hazard.  The source loops over
the keyword groups and returns True as soon as a group matches and the box
center lies in the pathway zone, returning False after the loop; since the
pathway test does not depend on the group this is the `any` below. -/
def is_critical_safety_hazard (class_name : String) (confidence : ℚ)
    (bbox_position : Box) (base_threshold : ℚ := 1/5) : Bool :=
  let adaptive_threshold := get_adaptive_confidence_threshold class_name
  let effective_threshold := max base_threshold adaptive_threshold
  if confidence < effective_threshold then false
  else
    let cl := pyLower class_name
    critical_hazards.any (fun p => anyKeyword cl p.2 && inPathway bbox_position)

/-- The severity record returned by `assess_hazard_severity`. -/
structure SeverityInfo where
  severity : String
  reason : String
  priority : Nat
  immediate_action : Bool
deriving DecidableEq, Repr

/-- Embeds `assess_hazard_severity` (lines 316-359). -/
def assess_hazard_severity (class_name : String) (_confidence : ℚ)
    (bbox_position : Box) : SeverityInfo :=
  let cl := pyLower class_name
  let object_size := bbox_position.w * bbox_position.h
  if anyKeyword cl ["car", "truck", "bus", "motorcycle", "bicycle"] then
    ⟨"critical", "Vehicle blocking emergency access", 1, true⟩
  else if object_size > 1/10 then
    ⟨"high", "Large object blocking significant pathway area", 2, true⟩
  else if 3/10 ≤ bbox_position.cx ∧ bbox_position.cx ≤ 7/10 ∧ object_size > 1/20 then
    ⟨"medium", "Object in main pathway area", 3, false⟩
  else
    ⟨"low", "Minor pathway obstruction", 4, false⟩

/-! ### The grid locator -/

/-- The fixed default box of `convert_grid_cells_to_bounding_box`, returned
on empty input, on zero valid tokens, and from the exception handler. -/
def defaultGridBox : Box := ⟨1/10, 1/10, 1/5, 1/5⟩

/-- Row letter to row index: A, B, C map to 0, 1, 2, anything else is
rejected (`continue` in the source). -/
def rowIndexOf (c : Char) : Option Nat :=
  if c = 'A' then some 0
  else if c = 'B' then some 1
  else if c = 'C' then some 2
  else none

/-- Parse one grid-cell token (lines 715-734): uppercase and strip, require
length at least 2, parse the column number (ValueError: reject), map the row
letter, and keep only column indices 0-3 (row indices from A/B/C are always
0-2; the source checks them anyway). -/
def parseCell (cell : String) : Option (Nat × Nat) :=
  let c := pyStrip (pyUpper cell)
  if c.toList.length < 2 then none
  else
    match pyInt? (pyDrop c 1) with
    | none => none
    | some n =>
      let colIndex : Int := n - 1
      match rowIndexOf (pyFront c) with
      | none => none
      | some rowIndex =>
        if 0 ≤ colIndex ∧ colIndex ≤ 3 ∧ rowIndex ≤ 2 then
          some (rowIndex, colIndex.toNat)
        else none

/-- The list of parsed (row, column) grid positions of an input string
(lines 704-735): replace "-" by ",", split on ",", strip each token, parse
each token, dropping invalid ones. -/
def grid_positions_of (s : String) : List (Nat × Nat) :=
  ((splitOnChar ',' (replaceChar '-' ',' s)).map pyStrip).filterMap parseCell

/-- The coordinate clamp of lines 757-758: clip into the unit interval. -/
def clampCoord (v : ℚ) : ℚ := max 0 (min 1 v)

/-- The size clamp of lines 759-760: at most the room left beside the
clamped coordinate, at least the minimum of 5 percent. -/
def clampSize (coord size : ℚ) : ℚ := max (1/20) (min (1 - coord) size)

/-- The box computation of `convert_grid_cells_to_bounding_box` from the
parsed grid positions (lines 737-762): with no valid position the default
box; otherwise the bounding rectangle of the positions scaled by the cell
size 1/4 x 1/3, clamped to the unit square with a minimum width and height
of 0.05. -/
def gridBoxFrom : List (Nat × Nat) → Box
  | [] => defaultGridBox
  | p :: ps =>
    let min_row := ps.foldl (fun a q => min a q.1) p.1
    let max_row := ps.foldl (fun a q => max a q.1) p.1
    let min_col := ps.foldl (fun a q => min a q.2) p.2
    let max_col := ps.foldl (fun a q => max a q.2) p.2
    let x := clampCoord ((min_col : ℚ) * (1/4))
    let y := clampCoord ((min_row : ℚ) * (1/3))
    let w := clampSize x (((max_col : ℚ) - (min_col : ℚ) + 1) * (1/4))
    let h := clampSize y (((max_row : ℚ) - (min_row : ℚ) + 1) * (1/3))
    ⟨x, y, w, h⟩

/-- Embeds `convert_grid_cells_to_bounding_box` (lines 695-766).  The source wraps
the body in try/except returning the default box; the embedding is total, so
the except branch is unreachable, like the empty-cell-list branch (a split
never yields an empty list). -/
def convert_grid_cells_to_bounding_box (grid_cells_string : String) : Box :=
  if pyStrip grid_cells_string = "" then defaultGridBox
  else if ((splitOnChar ',' (replaceChar '-' ',' grid_cells_string)).map pyStrip) = []
    then defaultGridBox
  else gridBoxFrom (grid_positions_of grid_cells_string)

/-- A left fold of binary minima never exceeds its starting value. -/
theorem foldl_min_le_init (f : Nat × Nat → Nat) (l : List (Nat × Nat)) (a : Nat) :
    l.foldl (fun b q => min b (f q)) a ≤ a := by
  induction l generalizing a with
  | nil => exact le_refl a
  | cons q l ih => exact le_trans (ih (min a (f q))) (min_le_left a (f q))

/-- Every position produced by `parseCell` has row index at most 2 and
column index at most 3. -/
theorem parseCell_valid (cell : String) (p : Nat × Nat)
    (h : parseCell cell = some p) : p.1 ≤ 2 ∧ p.2 ≤ 3 := by
  simp only [parseCell] at h
  split at h
  · exact absurd h (by simp)
  · split at h
    · exact absurd h (by simp)
    · split at h
      · exact absurd h (by simp)
      · split at h
        · rename_i n rowIndex _ hcond
          rw [Option.some_inj] at h
          subst h
          refine ⟨hcond.2.2, ?_⟩
          have := hcond.2.1
          omega
        · exact absurd h (by simp)

/-- Every parsed grid position is inside the 3 x 4 grid. -/
theorem grid_positions_valid (s : String) (p : Nat × Nat)
    (h : p ∈ grid_positions_of s) : p.1 ≤ 2 ∧ p.2 ≤ 3 := by
  unfold grid_positions_of at h
  obtain ⟨c, _, hc⟩ := List.mem_filterMap.mp h
  exact parseCell_valid c p hc

/-- The clamped coordinate is nonnegative. -/
theorem clampCoord_nonneg (v : ℚ) : 0 ≤ clampCoord v := le_max_left 0 _

/-- The clamped coordinate respects any nonnegative upper bound of the raw
value. -/
theorem clampCoord_le (v b : ℚ) (h : v ≤ b) (hb : 0 ≤ b) : clampCoord v ≤ b :=
  max_le hb (le_trans (min_le_right 1 v) h)

/-- The clamped size is at least the 5 percent floor. -/
theorem clampSize_ge (c s : ℚ) : 1/20 ≤ clampSize c s := le_max_left _ _

/-- Coordinate plus clamped size stays inside the unit interval whenever the
coordinate leaves room for the floor. -/
theorem clampSize_add_le (c s : ℚ) (hc : c ≤ 19/20) : c + clampSize c s ≤ 1 := by
  have h : clampSize c s ≤ 1 - c := max_le (by linarith) (min_le_left _ _)
  linarith

/-- The box built from a position list with an in-grid head satisfies the
claimed bounds. -/
theorem gridBoxFrom_bounds (p : Nat × Nat) (ps : List (Nat × Nat))
    (hrow : p.1 ≤ 2) (hcol : p.2 ≤ 3) :
    0 ≤ (gridBoxFrom (p :: ps)).x ∧ 0 ≤ (gridBoxFrom (p :: ps)).y ∧
    1/20 ≤ (gridBoxFrom (p :: ps)).w ∧ 1/20 ≤ (gridBoxFrom (p :: ps)).h ∧
    (gridBoxFrom (p :: ps)).x + (gridBoxFrom (p :: ps)).w ≤ 1 ∧
    (gridBoxFrom (p :: ps)).y + (gridBoxFrom (p :: ps)).h ≤ 1 := by
  have hminc : ps.foldl (fun a q => min a q.2) p.2 ≤ 3 :=
    le_trans (foldl_min_le_init (fun q => q.2) ps p.2) hcol
  have hminr : ps.foldl (fun a q => min a q.1) p.1 ≤ 2 :=
    le_trans (foldl_min_le_init (fun q => q.1) ps p.1) hrow
  have hxle : ((ps.foldl (fun a q => min a q.2) p.2 : Nat) : ℚ) * (1/4) ≤ 3/4 := by
    have h3 : ((ps.foldl (fun a q => min a q.2) p.2 : Nat) : ℚ) ≤ 3 := by
      exact_mod_cast hminc
    linarith
  have hyle : ((ps.foldl (fun a q => min a q.1) p.1 : Nat) : ℚ) * (1/3) ≤ 2/3 := by
    have h2 : ((ps.foldl (fun a q => min a q.1) p.1 : Nat) : ℚ) ≤ 2 := by
      exact_mod_cast hminr
    linarith
  simp only [gridBoxFrom]
  refine ⟨clampCoord_nonneg _, clampCoord_nonneg _, clampSize_ge _ _, clampSize_ge _ _,
    ?_, ?_⟩
  · exact clampSize_add_le _ _
      (le_trans (clampCoord_le _ (3/4) hxle (by norm_num)) (by norm_num))
  · exact clampSize_add_le _ _
      (le_trans (clampCoord_le _ (2/3) hyle (by norm_num)) (by norm_num))

/-- C8: the grid locator never raises on any input string (it is a total
function); when no valid token is parsed, and in particular on empty input,
it returns exactly the fixed default box x 0.1, y 0.1, w 0.2, h 0.2; and on
every input the returned box satisfies 0 ≤ x, 0 ≤ y, w ≥ 0.05, h ≥ 0.05,
x + w ≤ 1 and y + h ≤ 1 (exactly, in the rational idealisation of the
float arithmetic). -/
theorem grid_box_total_and_bounded (s : String) :
    (0 ≤ (convert_grid_cells_to_bounding_box s).x ∧
     0 ≤ (convert_grid_cells_to_bounding_box s).y ∧
     1/20 ≤ (convert_grid_cells_to_bounding_box s).w ∧
     1/20 ≤ (convert_grid_cells_to_bounding_box s).h ∧
     (convert_grid_cells_to_bounding_box s).x
       + (convert_grid_cells_to_bounding_box s).w ≤ 1 ∧
     (convert_grid_cells_to_bounding_box s).y
       + (convert_grid_cells_to_bounding_box s).h ≤ 1) ∧
    (grid_positions_of s = [] →
      convert_grid_cells_to_bounding_box s = defaultGridBox) := by
  have hdef : 0 ≤ defaultGridBox.x ∧ 0 ≤ defaultGridBox.y ∧
      1/20 ≤ defaultGridBox.w ∧ 1/20 ≤ defaultGridBox.h ∧
      defaultGridBox.x + defaultGridBox.w ≤ 1 ∧
      defaultGridBox.y + defaultGridBox.h ≤ 1 := by
    refine ⟨by decide, by decide, by decide, by decide, by decide, by decide⟩
  unfold convert_grid_cells_to_bounding_box
  split
  · exact ⟨hdef, fun _ => rfl⟩
  · split
    · exact ⟨hdef, fun _ => rfl⟩
    · constructor
      · cases hps : grid_positions_of s with
        | nil => exact hdef
        | cons p ps =>
          have hv := grid_positions_valid s p
            (by rw [hps]; exact List.mem_cons_self p ps)
          exact gridBoxFrom_bounds p ps hv.1 hv.2
      · intro hps
        rw [hps]
        rfl

/-- Witness for C8: the input "zz" parses to no valid token, and the locator
returns exactly the default box on it. -/
theorem grid_box_total_and_bounded_witness :
    convert_grid_cells_to_bounding_box "zz" = defaultGridBox :=
  (grid_box_total_and_bounded "zz").2 (by decide)

/-! ### Claims C5, C10: the deduplicator on two detections -/

/-- C5: for exactly two detections, if they share a class name and their box
centers are closer than the proximity threshold 0.1 (stated square-free:
`centerDistLt`), `remove_duplicate_detections` returns exactly the
higher-confidence one; if their class names differ, both are returned (no
condition on their centers, so also when the centers coincide). -/
theorem dedup_two_detections (d1 d2 : Detection) :
    (d1.class_name = d2.class_name →
      centerDistLt d2.bbox d1.bbox (1/10) = true →
      (d1.confidence < d2.confidence →
        remove_duplicate_detections [d1, d2] = [d2]) ∧
      (d2.confidence < d1.confidence →
        remove_duplicate_detections [d1, d2] = [d1])) ∧
    (d1.class_name ≠ d2.class_name →
      remove_duplicate_detections [d1, d2] = [d1, d2]) := by
  have step : remove_duplicate_detections [d1, d2]
      = dedupStep (1/10) (dedupStep (1/10) [] d1) d2 := rfl
  have e1 : dedupStep (1/10) [] d1 = [d1] := by simp [dedupStep]
  constructor
  · intro hc hd
    have hp : (d2.class_name == d1.class_name
        && centerDistLt d2.bbox d1.bbox (1/10)) = true := by
      rw [Bool.and_eq_true]
      exact ⟨by simp [beq_iff_eq, hc], hd⟩
    have e2 : dedupStep (1/10) [d1] d2
        = if d2.confidence > d1.confidence then [d2] else [d1] := by
      simp only [dedupStep, List.find?, hp]
      split

      · simp [List.erase_cons_head]
      · rfl
    constructor
    · intro hlt
      rw [step, e1, e2, if_pos hlt]
    · intro hlt
      rw [step, e1, e2, if_neg (by exact fun h => absurd hlt (not_lt_of_lt h))]
  · intro hc
    have hp : (d2.class_name == d1.class_name
        && centerDistLt d2.bbox d1.bbox (1/10)) = false := by
      have : (d2.class_name == d1.class_name) = false := by
        simp [beq_iff_eq]; exact fun h => hc h.symm
      simp [this]
    have e2 : dedupStep (1/10) [d1] d2 = [d1, d2] := by
      simp only [dedupStep, List.find?, hp]
      rfl
    rw [step, e1, e2]

/-- Witness for C5 at concrete inputs: two same-class close detections with
confidences 0.5 < 0.7 keep only the second; two different-class detections
with identical boxes are both kept. -/
theorem dedup_two_detections_witness :
    remove_duplicate_detections
      [⟨"car", 1/2, ⟨0, 0, 1/10, 1/10⟩, "vehicle", true, "nano", "a"⟩,
       ⟨"car", 7/10, ⟨0, 0, 1/10, 1/10⟩, "vehicle", true, "nano", "b"⟩]
      = [⟨"car", 7/10, ⟨0, 0, 1/10, 1/10⟩, "vehicle", true, "nano", "b"⟩] ∧
    remove_duplicate_detections
      [⟨"car", 1/2, ⟨0, 0, 1/10, 1/10⟩, "vehicle", true, "nano", "a"⟩,
       ⟨"person", 1/2, ⟨0, 0, 1/10, 1/10⟩, "person", false, "nano", "c"⟩]
      = [⟨"car", 1/2, ⟨0, 0, 1/10, 1/10⟩, "vehicle", true, "nano", "a"⟩,
         ⟨"person", 1/2, ⟨0, 0, 1/10, 1/10⟩, "person", false, "nano", "c"⟩] :=
  ⟨((dedup_two_detections _ _).1 (by decide) (by decide)).1 (by decide),
   (dedup_two_detections _ _).2 (by decide)⟩

/-- C10: two same-class detections within the proximity threshold whose
confidences are exactly equal: the first-arriving detection survives, because
the replacement test `detection['confidence'] > existing['confidence']` is a
strict comparison. -/
theorem dedup_equal_confidence_keeps_first (d1 d2 : Detection)
    (hc : d1.class_name = d2.class_name)
    (hd : centerDistLt d2.bbox d1.bbox (1/10) = true)
    (he : d1.confidence = d2.confidence) :
    remove_duplicate_detections [d1, d2] = [d1] := by
  have step : remove_duplicate_detections [d1, d2]
      = dedupStep (1/10) (dedupStep (1/10) [] d1) d2 := rfl
  have e1 : dedupStep (1/10) [] d1 = [d1] := by simp [dedupStep]
  have hp : (d2.class_name == d1.class_name
      && centerDistLt d2.bbox d1.bbox (1/10)) = true := by
    rw [Bool.and_eq_true]
    exact ⟨by simp [beq_iff_eq, hc], hd⟩
  have e2 : dedupStep (1/10) [d1] d2 = [d1] := by
    simp only [dedupStep, List.find?, hp]
    rw [if_neg (by rw [he]; exact lt_irrefl _)]
  rw [step, e1, e2]

/-- Witness for C10 at concrete inputs: equal confidences, same class,
identical centers: the first detection survives. -/
theorem dedup_equal_confidence_keeps_first_witness :
    remove_duplicate_detections
      [⟨"car", 1/2, ⟨0, 0, 1/10, 1/10⟩, "vehicle", true, "nano", "a"⟩,
       ⟨"car", 1/2, ⟨1/100, 0, 1/10, 1/10⟩, "vehicle", true, "nano", "b"⟩]
      = [⟨"car", 1/2, ⟨0, 0, 1/10, 1/10⟩, "vehicle", true, "nano", "a"⟩] :=
  dedup_equal_confidence_keeps_first _ _ (by decide) (by decide) (by decide)

/-! ### Claim C6: the adaptive confidence threshold gates hazards -/

/-- C6: `is_critical_safety_hazard` returns false whenever the confidence is
strictly below the class-specific adaptive threshold, for every class name,
box and caller-supplied base floor (the effective threshold is the maximum
of the adaptive value and the base floor, so it is at least the adaptive
value); moreover the adaptive tiers are 0.20 for vehicle keywords, 0.25 for
blocking furniture/container keywords, 0.35 for small portable item
keywords and 0.30 by default. -/
theorem below_adaptive_threshold_not_hazard :
    (∀ (class_name : String) (confidence : ℚ) (bbox : Box) (base : ℚ),
      confidence < get_adaptive_confidence_threshold class_name →
      is_critical_safety_hazard class_name confidence bbox base = false) ∧
    get_adaptive_confidence_threshold "car" = 1/5 ∧
    get_adaptive_confidence_threshold "desk" = 1/4 ∧
    get_adaptive_confidence_threshold "phone" = 7/20 ∧
    get_adaptive_confidence_threshold "dog" = 3/10 := by
  refine ⟨?_, by decide, by decide, by decide, by decide⟩
  intro c conf bbox base h
  have heff : conf < max base (get_adaptive_confidence_threshold c) :=
    lt_of_lt_of_le h (le_max_right _ _)
  simp only [is_critical_safety_hazard]
  rw [if_pos heff]

/-- Witness for C6 at a concrete input: a "car" detection at confidence 0.1,
below the 0.20 vehicle tier, is not a hazard even at pathway center. -/
theorem below_adaptive_threshold_not_hazard_witness :
    (1 : ℚ)/10 < get_adaptive_confidence_threshold "car" ∧
    is_critical_safety_hazard "car" (1/10) ⟨2/5, 1/2, 1/5, 1/5⟩ (1/5) = false :=
  ⟨by decide,
   below_adaptive_threshold_not_hazard.1 "car" (1/10) ⟨2/5, 1/2, 1/5, 1/5⟩ (1/5)
     (by decide)⟩

/-! ### Claim C1: the mitigation synthesizer -/

/-- Zero-pad a natural number to two digits, Python's `%02d` format. -/
def pad2 (n : Nat) : String := if n < 10 then "0" ++ toString n else toString n

/-- Round to the nearest integer, ties to even, the rounding of Python's
fixed-point float formatting. -/
def roundHalfEven (q : ℚ) : ℤ :=
  let f := ⌊q⌋
  let r := q - (f : ℚ)
  if r < 1/2 then f
  else if 1/2 < r then f + 1
  else if f % 2 = 0 then f else f + 1

/-- Python's `f"{x:.2f}"` two-decimal rendering, idealised over exact
rationals (the source formats binary floats, whose representation error is
immaterial to every property proved here). -/
def fmt2 (q : ℚ) : String :=
  let m := roundHalfEven (q * 100)
  let a := m.natAbs
  (if m < 0 then "-" else "") ++ toString (a / 100) ++ "." ++ pad2 (a % 100)

/-- Python `", ".join(items)` and friends. -/
def joinWith (sep : String) : List String → String
  | [] => ""
  | [a] => a
  | a :: rest => a ++ sep ++ joinWith sep rest

/-- The per-detection text `f"{obj['class_name']} (conf: {obj['confidence']:.2f})"`
used in the bucket descriptions. -/
def detailLine (obj : Detection) : String :=
  obj.class_name ++ " (conf: " ++ fmt2 obj.confidence ++ ")"

/-- The two global booleans handed to `generate_mitigation_strategies` as
`ai_analysis` (only the keys incorrectParking and wasteMaterial are read). -/
structure AIFlags where
  incorrectParking : Bool
  wasteMaterial : Bool
deriving DecidableEq, Repr

/-- One mitigation record (the dictionaries appended to `mitigations`).
The compliance field appears only in the vehicle record. -/
structure Mitigation where
  type : String
  severity : String
  urgency : String
  description : String
  specific_risks : List String
  mitigation_steps : List String
  timeline : String
  responsible_party : String
  estimated_cost : String
  emergency_impact : String
  compliance : Option String
deriving DecidableEq, Repr

/-- The eight hazard buckets of `generate_mitigation_strategies`
(lines 368-377). -/
structure ObjectCategories where
  vehicles : List Detection
  furniture : List Detection
  personal_items : List Detection
  containers : List Detection
  trip_hazards : List Detection
  equipment : List Detection
  people : List Detection
  other_hazards : List Detection
deriving DecidableEq, Repr

/-- All eight buckets empty, Python's `not any(object_categories.values())`. -/
def ObjectCategories.allEmpty (c : ObjectCategories) : Bool :=
  c.vehicles.isEmpty && c.furniture.isEmpty && c.personal_items.isEmpty &&
  c.containers.isEmpty && c.trip_hazards.isEmpty && c.equipment.isEmpty &&
  c.people.isEmpty && c.other_hazards.isEmpty

/-- The bucket assignment of one detected object (lines 380-400): only
hazard-classified objects are bucketed, by the if/elif keyword chain. -/
def categorizeStep (cats : ObjectCategories) (obj : Detection) : ObjectCategories :=
  if obj.potential_hazard then
    let category := obj.safety_category
    let cl := pyLower obj.class_name
    if category = "vehicle" ∨
        anyKeyword cl ["car", "truck", "bus", "motorcycle", "bicycle"] = true then
      { cats with vehicles := cats.vehicles ++ [obj] }
    else if category = "person" ∨ strContains cl "person" = true then
      { cats with people := cats.people ++ [obj] }
    else if anyKeyword cl ["chair", "table", "bench", "desk", "cabinet"] then
      { cats with furniture := cats.furniture ++ [obj] }
    else if anyKeyword cl ["bag", "suitcase", "backpack", "luggage"] then
      { cats with personal_items := cats.personal_items ++ [obj] }
    else if anyKeyword cl ["box", "container", "barrel", "bucket"] then
      { cats with containers := cats.containers ++ [obj] }
    else if anyKeyword cl ["bottle", "cup", "ball", "book", "phone"] then
      { cats with trip_hazards := cats.trip_hazards ++ [obj] }
    else if anyKeyword cl ["monitor", "computer", "printer", "machine"] then
      { cats with equipment := cats.equipment ++ [obj] }
    else
      { cats with other_hazards := cats.other_hazards ++ [obj] }
  else cats

/-- The bucket contents for a detection list (the categorisation loop of
lines 380-400). -/
def object_categories_of (objs : List Detection) : ObjectCategories :=
  objs.foldl categorizeStep ⟨[], [], [], [], [], [], [], []⟩

/-- The vehicles record (lines 405-431). -/
def vehicleMitigation (vehicles : List Detection) : Mitigation where
  type := "vehicle_parking_violation"
  severity := "critical"
  urgency := "immediate"
  description := "Detected " ++ toString vehicles.length ++ " vehicle(s): "
    ++ joinWith ", " (vehicles.map detailLine)
  specific_risks := ["Blocks emergency vehicle access",
    "Prevents fire brigade movement", "Obstructs evacuation routes",
    "Creates fire safety violations"]
  mitigation_steps := ["IMMEDIATE: Contact vehicle owners for immediate removal",
    "IMMEDIATE: Deploy traffic cones to mark violation area",
    "SHORT-TERM: Install permanent \x27No Parking\x27 signage",
    "SHORT-TERM: Paint red lines on pavement",
    "LONG-TERM: Install physical barriers (bollards)",
    "LONG-TERM: Implement automated monitoring system"]
  timeline := "Immediate action required within 30 minutes"
  responsible_party := "Security/Facilities Management"
  estimated_cost := "Low ($100-500 for signage) to Medium ($2000-5000 for barriers)"
  emergency_impact := "Critical - directly blocks emergency vehicle access"
  compliance := some "Fire safety code violation - immediate remediation required"

/-- The furniture record (lines 434-456). -/
def furnitureMitigation (furniture : List Detection) : Mitigation where
  type := "furniture_obstruction"
  severity := "high"
  urgency := "short-term"
  description := "Detected " ++ toString furniture.length ++ " furniture item(s): "
    ++ joinWith ", " (furniture.map detailLine)
  specific_risks := ["Reduces pathway width below minimum requirements",
    "Impedes emergency evacuation flow", "Creates bottlenecks during emergencies"]
  mitigation_steps := ["IMMEDIATE: Relocate furniture to designated areas",
    "SHORT-TERM: Mark minimum pathway widths with tape",
    "MEDIUM-TERM: Designate specific furniture zones",
    "LONG-TERM: Implement 5S workplace organization"]
  timeline := "Complete within 24 hours"
  responsible_party := "Warehouse Operations/Maintenance"
  estimated_cost := "Low ($50-200 for marking materials)"
  emergency_impact := "High - significantly impedes evacuation flow"
  compliance := none

/-- The containers record (lines 459-481). -/
def containerMitigation (containers : List Detection) : Mitigation where
  type := "container_storage_violation"
  severity := "medium"
  urgency := "short-term"
  description := "Detected " ++ toString containers.length ++ " container(s): "
    ++ joinWith ", " (containers.map detailLine)
  specific_risks := ["Creates pathway obstacles", "Potential for contents to spill",
    "May fall and cause injuries"]
  mitigation_steps := ["IMMEDIATE: Move containers to designated storage areas",
    "SHORT-TERM: Secure containers properly",
    "MEDIUM-TERM: Install proper shelving systems",
    "LONG-TERM: Implement container management protocols"]
  timeline := "Complete within 2-3 days"
  responsible_party := "Warehouse Staff/Supervisors"
  estimated_cost := "Medium ($500-2000 for storage solutions)"
  emergency_impact := "Medium - creates obstacles but pathways remain navigable"
  compliance := none

/-- The trip-hazards record (lines 484-507). -/
def tripHazardMitigation (trips : List Detection) : Mitigation where
  type := "trip_hazard_elimination"
  severity := "medium"
  urgency := "immediate"
  description := "Detected " ++ toString trips.length ++ " trip hazard(s): "
    ++ joinWith ", " (trips.map detailLine)
  specific_risks := ["Causes falls and injuries", "Slows emergency evacuation",
    "Creates liability issues"]
  mitigation_steps := ["IMMEDIATE: Remove or secure loose objects",
    "IMMEDIATE: Clean up spills and debris",
    "SHORT-TERM: Install adequate trash receptacles",
    "MEDIUM-TERM: Implement regular cleaning schedule",
    "LONG-TERM: Staff training on housekeeping protocols"]
  timeline := "Immediate removal within 1 hour"
  responsible_party := "Cleaning/Maintenance Staff"
  estimated_cost := "Low ($20-100 for cleaning supplies)"
  emergency_impact := "Medium - may cause delays during evacuation"
  compliance := none

/-- The personal-items record (lines 510-532). -/
def personalItemsMitigation (personal : List Detection) : Mitigation where
  type := "personal_belongings_management"
  severity := "low"
  urgency := "short-term"
  description := "Detected " ++ toString personal.length ++ " personal item(s): "
    ++ joinWith ", " (personal.map detailLine)
  specific_risks := ["Creates pathway clutter",
    "May contain valuable items (security risk)",
    "Indicates lack of proper storage protocols"]
  mitigation_steps := ["IMMEDIATE: Relocate to designated personal storage areas",
    "SHORT-TERM: Install personal lockers if needed",
    "MEDIUM-TERM: Implement clear desk/area policies",
    "LONG-TERM: Staff training on personal item management"]
  timeline := "Complete within 1 week"
  responsible_party := "HR/Facilities Management"
  estimated_cost := "Medium ($200-1000 for storage solutions)"
  emergency_impact := "Low - minimal impact on emergency procedures"
  compliance := none

/-- The people record (lines 535-556). -/
def peopleMitigation (people : List Detection) : Mitigation where
  type := "personnel_safety_training"
  severity := "medium"
  urgency := "short-term"
  description := "Detected " ++ toString people.length ++ " person(s) in area"
  specific_risks := ["Personnel may not be aware of emergency procedures",
    "Potential for panic during emergencies",
    "May inadvertently block evacuation routes"]
  mitigation_steps := ["IMMEDIATE: Conduct emergency procedure briefing",
    "SHORT-TERM: Post emergency evacuation maps",
    "MEDIUM-TERM: Conduct emergency evacuation drills",
    "LONG-TERM: Implement regular safety training program"]
  timeline := "Initial briefing within 24 hours, full training within 1 month"
  responsible_party := "Safety Officer/HR Department"
  estimated_cost := "Low ($100-500 for training materials)"
  emergency_impact := "Variable - depends on personnel emergency preparedness"
  compliance := none

/-- The parking-flag record (lines 559-580). -/
def aiParkingMitigation : Mitigation where
  type := "ai_detected_parking_violation"
  severity := "critical"
  urgency := "immediate"
  description := "AI visual analysis detected parking violations affecting emergency access"
  specific_risks := ["Confirmed visual obstruction of emergency routes",
    "Fire code compliance violation", "Insurance liability issues"]
  mitigation_steps := ["IMMEDIATE: Document violation with photos",
    "IMMEDIATE: Contact vehicle owners",
    "SHORT-TERM: Install physical barriers",
    "LONG-TERM: Implement automated monitoring"]
  timeline := "Immediate action required"
  responsible_party := "Security/Management"
  estimated_cost := "Medium ($1000-3000 for comprehensive solution)"
  emergency_impact := "Critical - confirmed emergency access obstruction"
  compliance := none

/-- The waste-flag record (lines 582-603). -/
def aiWasteMitigation : Mitigation where
  type := "ai_detected_waste_debris"
  severity := "medium"
  urgency := "immediate"
  description := "AI visual analysis detected waste or debris in pathways"
  specific_risks := ["Confirmed pathway obstruction", "Slip and trip hazards",
    "Fire fuel load concerns"]
  mitigation_steps := ["IMMEDIATE: Remove waste and debris",
    "SHORT-TERM: Increase cleaning frequency",
    "MEDIUM-TERM: Install additional waste receptacles",
    "LONG-TERM: Implement waste management protocols"]
  timeline := "Complete cleaning within 2 hours"
  responsible_party := "Cleaning/Maintenance Staff"
  estimated_cost := "Low ($50-200 for enhanced cleaning)"
  emergency_impact := "Medium - creates evacuation hazards"
  compliance := none

/-- The fallback record (lines 606-626). -/
def preventiveMitigation : Mitigation where
  type := "preventive_maintenance"
  severity := "low"
  urgency := "long-term"
  description := "No immediate hazards detected - implement preventive measures"
  specific_risks := ["Future hazard development",
    "Gradual safety standard degradation"]
  mitigation_steps := ["ONGOING: Maintain regular safety inspections",
    "MONTHLY: Review and update safety protocols",
    "QUARTERLY: Conduct comprehensive safety audits",
    "ANNUALLY: Update emergency response procedures"]
  timeline := "Ongoing preventive program"
  responsible_party := "Safety Committee"
  estimated_cost := "Low ($100-300 monthly for ongoing programs)"
  emergency_impact := "Preventive - maintains safety standards"
  compliance := none

/-- Embeds `generate_mitigation_strategies` (lines 361-628): bucket the
hazard-classified detections, then append the per-bucket records in source
order (vehicles, furniture, containers, trip hazards, personal items,
people), then the two flag-driven records, then the fallback when every
bucket is empty and both flags are false. -/
def generate_mitigation_strategies (detected_objects : List Detection)
    (ai_analysis : AIFlags) : List Mitigation :=
  let cats := object_categories_of detected_objects
  (if cats.vehicles.isEmpty then [] else [vehicleMitigation cats.vehicles]) ++
  (if cats.furniture.isEmpty then [] else [furnitureMitigation cats.furniture]) ++
  (if cats.containers.isEmpty then [] else [containerMitigation cats.containers]) ++
  (if cats.trip_hazards.isEmpty then [] else [tripHazardMitigation cats.trip_hazards]) ++
  (if cats.personal_items.isEmpty then [] else [personalItemsMitigation cats.personal_items]) ++
  (if cats.people.isEmpty then [] else [peopleMitigation cats.people]) ++
  (if ai_analysis.incorrectParking then [aiParkingMitigation] else []) ++
  (if ai_analysis.wasteMaterial then [aiWasteMitigation] else []) ++
  (if cats.allEmpty && !ai_analysis.incorrectParking && !ai_analysis.wasteMaterial
    then [preventiveMitigation] else [])

/-- Counting over a conditionally empty singleton, nil branch first. -/
theorem countP_ite_nil_singleton (p : Mitigation → Bool) (c : Prop) [Decidable c]
    (r : Mitigation) :
    List.countP p (if c then [] else [r])
      = if c then 0 else if p r then 1 else 0 := by
  split <;> simp [List.countP_cons]

/-- Counting over a conditionally empty singleton, singleton branch first. -/
theorem countP_ite_singleton_nil (p : Mitigation → Bool) (c : Prop) [Decidable c]
    (r : Mitigation) :
    List.countP p (if c then [r] else [])
      = if c then (if p r then 1 else 0) else 0 := by
  split <;> simp [List.countP_cons]

/-- Length of a conditionally empty singleton, nil branch first. -/
theorem length_ite_nil_singleton {α : Type} (c : Prop) [Decidable c] (r : α) :
    (if c then ([] : List α) else [r]).length = if c then 0 else 1 := by
  split <;> simp

/-- Length of a conditionally empty singleton, singleton branch first. -/
theorem length_ite_singleton_nil {α : Type} (c : Prop) [Decidable c] (r : α) :
    (if c then [r] else ([] : List α)).length = if c then 1 else 0 := by
  split <;> simp

/-- Distribution of `countP` over the nine conditional blocks of
`generate_mitigation_strategies`. -/
theorem countP_generate (objs : List Detection) (ai : AIFlags)
    (p : Mitigation → Bool) :
    (generate_mitigation_strategies objs ai).countP p
      = (if (object_categories_of objs).vehicles.isEmpty then 0
          else if p (vehicleMitigation (object_categories_of objs).vehicles) then 1 else 0)
      + (if (object_categories_of objs).furniture.isEmpty then 0
          else if p (furnitureMitigation (object_categories_of objs).furniture) then 1 else 0)
      + (if (object_categories_of objs).containers.isEmpty then 0
          else if p (containerMitigation (object_categories_of objs).containers) then 1 else 0)
      + (if (object_categories_of objs).trip_hazards.isEmpty then 0
          else if p (tripHazardMitigation (object_categories_of objs).trip_hazards) then 1 else 0)
      + (if (object_categories_of objs).personal_items.isEmpty then 0
          else if p (personalItemsMitigation (object_categories_of objs).personal_items) then 1 else 0)
      + (if (object_categories_of objs).people.isEmpty then 0
          else if p (peopleMitigation (object_categories_of objs).people) then 1 else 0)
      + (if ai.incorrectParking then (if p aiParkingMitigation then 1 else 0) else 0)
      + (if ai.wasteMaterial then (if p aiWasteMitigation then 1 else 0) else 0)
      + (if ((object_categories_of objs).allEmpty
            && !ai.incorrectParking && !ai.wasteMaterial : Bool)
          then (if p preventiveMitigation then 1 else 0) else 0) := by
  simp only [generate_mitigation_strategies, List.countP_append,
    countP_ite_nil_singleton, countP_ite_singleton_nil]

/-- Distribution of `length` over the nine conditional blocks of
`generate_mitigation_strategies`. -/
theorem length_generate (objs : List Detection) (ai : AIFlags) :
    (generate_mitigation_strategies objs ai).length
      = (if (object_categories_of objs).vehicles.isEmpty then 0 else 1)
      + (if (object_categories_of objs).furniture.isEmpty then 0 else 1)
      + (if (object_categories_of objs).containers.isEmpty then 0 else 1)
      + (if (object_categories_of objs).trip_hazards.isEmpty then 0 else 1)
      + (if (object_categories_of objs).personal_items.isEmpty then 0 else 1)
      + (if (object_categories_of objs).people.isEmpty then 0 else 1)
      + (if ai.incorrectParking then 1 else 0)
      + (if ai.wasteMaterial then 1 else 0)
      + (if ((object_categories_of objs).allEmpty
            && !ai.incorrectParking && !ai.wasteMaterial : Bool) then 1 else 0) := by
  simp only [generate_mitigation_strategies, List.length_append,
    length_ite_nil_singleton, length_ite_singleton_nil]

/-- The six bucket record types, in emission order. -/
def bucketRecordTypes : List String :=
  ["vehicle_parking_violation", "furniture_obstruction",
   "container_storage_violation", "trip_hazard_elimination",
   "personal_belongings_management", "personnel_safety_training"]

/-- C1 amended: `generate_mitigation_strategies` emits exactly one record
for each NON-EMPTY bucket among six of the eight buckets (vehicles,
furniture, containers, trip hazards, personal items, people); a non-empty
equipment or other bucket emits no record at all (the record total counts
only those six buckets and the two flag records and the fallback); it emits
the fallback preventive_maintenance record exactly when all eight buckets
are empty and both flags are false; and it never emits a bucket record and
the fallback record together. -/
theorem mitigation_record_counts (objs : List Detection) (ai : AIFlags) :
    ((generate_mitigation_strategies objs ai).countP
        (fun m => decide (m.type = "vehicle_parking_violation"))
      = if (object_categories_of objs).vehicles.isEmpty then 0 else 1) ∧
    ((generate_mitigation_strategies objs ai).countP
        (fun m => decide (m.type = "furniture_obstruction"))
      = if (object_categories_of objs).furniture.isEmpty then 0 else 1) ∧
    ((generate_mitigation_strategies objs ai).countP
        (fun m => decide (m.type = "container_storage_violation"))
      = if (object_categories_of objs).containers.isEmpty then 0 else 1) ∧
    ((generate_mitigation_strategies objs ai).countP
        (fun m => decide (m.type = "trip_hazard_elimination"))
      = if (object_categories_of objs).trip_hazards.isEmpty then 0 else 1) ∧
    ((generate_mitigation_strategies objs ai).countP
        (fun m => decide (m.type = "personal_belongings_management"))
      = if (object_categories_of objs).personal_items.isEmpty then 0 else 1) ∧
    ((generate_mitigation_strategies objs ai).countP
        (fun m => decide (m.type = "personnel_safety_training"))
      = if (object_categories_of objs).people.isEmpty then 0 else 1) ∧
    ((generate_mitigation_strategies objs ai).countP
        (fun m => decide (m.type = "preventive_maintenance"))
      = if ((object_categories_of objs).allEmpty
            && !ai.incorrectParking && !ai.wasteMaterial : Bool) then 1 else 0) ∧
    ((generate_mitigation_strategies objs ai).length
      = (if (object_categories_of objs).vehicles.isEmpty then 0 else 1)
      + (if (object_categories_of objs).furniture.isEmpty then 0 else 1)
      + (if (object_categories_of objs).containers.isEmpty then 0 else 1)
      + (if (object_categories_of objs).trip_hazards.isEmpty then 0 else 1)
      + (if (object_categories_of objs).personal_items.isEmpty then 0 else 1)
      + (if (object_categories_of objs).people.isEmpty then 0 else 1)
      + (if ai.incorrectParking then 1 else 0)
      + (if ai.wasteMaterial then 1 else 0)
      + (if ((object_categories_of objs).allEmpty
            && !ai.incorrectParking && !ai.wasteMaterial : Bool) then 1 else 0)) ∧
    ((generate_mitigation_strategies objs ai).countP
        (fun m => bucketRecordTypes.contains m.type)
      * (generate_mitigation_strategies objs ai).countP
        (fun m => decide (m.type = "preventive_maintenance")) = 0) := by
  refine ⟨?_, ?_, ?_, ?_, ?_, ?_, ?_, length_generate objs ai, ?_⟩
  · rw [countP_generate]
    simp [vehicleMitigation, furnitureMitigation, containerMitigation,
      tripHazardMitigation, personalItemsMitigation, peopleMitigation,
      aiParkingMitigation, aiWasteMitigation, preventiveMitigation]
  · rw [countP_generate]
    simp [vehicleMitigation, furnitureMitigation, containerMitigation,
      tripHazardMitigation, personalItemsMitigation, peopleMitigation,
      aiParkingMitigation, aiWasteMitigation, preventiveMitigation]
  · rw [countP_generate]
    simp [vehicleMitigation, furnitureMitigation, containerMitigation,
      tripHazardMitigation, personalItemsMitigation, peopleMitigation,
      aiParkingMitigation, aiWasteMitigation, preventiveMitigation]
  · rw [countP_generate]
    simp [vehicleMitigation, furnitureMitigation, containerMitigation,
      tripHazardMitigation, personalItemsMitigation, peopleMitigation,
      aiParkingMitigation, aiWasteMitigation, preventiveMitigation]
  · rw [countP_generate]
    simp [vehicleMitigation, furnitureMitigation, containerMitigation,
      tripHazardMitigation, personalItemsMitigation, peopleMitigation,
      aiParkingMitigation, aiWasteMitigation, preventiveMitigation]
  · rw [countP_generate]
    simp [vehicleMitigation, furnitureMitigation, containerMitigation,
      tripHazardMitigation, personalItemsMitigation, peopleMitigation,
      aiParkingMitigation, aiWasteMitigation, preventiveMitigation]
  · rw [countP_generate]
    simp [vehicleMitigation, furnitureMitigation, containerMitigation,
      tripHazardMitigation, personalItemsMitigation, peopleMitigation,
      aiParkingMitigation, aiWasteMitigation, preventiveMitigation]
  · by_cases hall : ((object_categories_of objs).allEmpty
        && !ai.incorrectParking && !ai.wasteMaterial : Bool) = true
    · simp only [ObjectCategories.allEmpty, Bool.and_eq_true,
        List.isEmpty_iff] at hall
      obtain ⟨⟨⟨⟨⟨⟨⟨⟨⟨hv, hf⟩, hpi⟩, hc⟩, ht⟩, he⟩, hpe⟩, ho⟩, hp1⟩, hp2⟩ := hall
      have hA : (generate_mitigation_strategies objs ai).countP
          (fun m => bucketRecordTypes.contains m.type) = 0 := by
        rw [countP_generate]
        have hb7 : aiParkingMitigation.type ∉ bucketRecordTypes := by decide
        have hb8 : aiWasteMitigation.type ∉ bucketRecordTypes := by decide
        have hb9 : preventiveMitigation.type ∉ bucketRecordTypes := by decide
        simp [hv, hf, hpi, hc, ht, hpe, hb7, hb8, hb9]
      rw [hA, Nat.zero_mul]
    · have hB : (generate_mitigation_strategies objs ai).countP
          (fun m => decide (m.type = "preventive_maintenance")) = 0 := by
        rw [countP_generate]
        simp [vehicleMitigation, furnitureMitigation, containerMitigation,
          tripHazardMitigation, personalItemsMitigation, peopleMitigation,
          aiParkingMitigation, aiWasteMitigation, hall]
      rw [hB, Nat.mul_zero]

/-- C1 counterexample: a hazard-classified "machine" detection (its adaptive
threshold is the 0.30 default, its safety category "other") lands in the
equipment bucket, yet `generate_mitigation_strategies` emits NO record for
it — not one record per non-empty bucket — while the non-empty bucket also
suppresses the fallback, so the output is empty. -/
theorem mitigation_equipment_bucket_dropped :
    is_critical_safety_hazard "machine" (1/2) ⟨2/5, 1/2, 1/5, 1/5⟩ (1/5) = true ∧
    classify_object_for_safety "machine" = "other" ∧
    (object_categories_of
        [⟨"machine", 1/2, ⟨2/5, 1/2, 1/5, 1/5⟩, "other", true, "nano", "m"⟩]).equipment
      = [⟨"machine", 1/2, ⟨2/5, 1/2, 1/5, 1/5⟩, "other", true, "nano", "m"⟩] ∧
    generate_mitigation_strategies
      [⟨"machine", 1/2, ⟨2/5, 1/2, 1/5, 1/5⟩, "other", true, "nano", "m"⟩]
      ⟨false, false⟩ = [] :=
  ⟨by decide, by decide, by decide, by decide⟩

/-! ### Claim C3: the similarity scorer

The per-method scores (SSIM from scikit-image, histogram correlation and
normalized template matching from OpenCV) are computed by external libraries
on pixel data, so they enter the embedding as inputs: an optional SSIM score
(present when scikit-image is importable), the always-present histogram
score, and an optional template score (absent when cv2.matchTemplate
raises).  The embedded function is the repository's aggregation and decision
logic. -/

/-- Embeds `calculate_image_similarity` (analyze_frames_openrouter.py lines
646-693): if either image fails to load the answer is False; otherwise the
scores are collected in source order (SSIM when available, histogram,
template when it succeeds) and the frames are similar iff the maximum score
strictly exceeds the threshold (an empty score list, impossible since the
histogram score is always appended, would give False). -/
def calculate_image_similarity (images_loaded : Bool) (ssim_score : Option ℚ)
    (hist_score : ℚ) (template_score : Option ℚ) (threshold : ℚ := 4/5) : Bool :=
  if !images_loaded then false
  else
    let similarity_scores := ssim_score.toList ++ [hist_score] ++ template_score.toList
    match similarity_scores.max? with
    | some max_similarity => decide (max_similarity > threshold)
    | none => false

/-- Embeds `calculate_frame_similarity` (extract_frames_opencv.py lines 81-129):
identical aggregation logic over in-memory frames, with default threshold
0.85. -/
def calculate_frame_similarity (frames_loaded : Bool) (ssim_score : Option ℚ)
    (hist_score : ℚ) (template_score : Option ℚ) (threshold : ℚ := 17/20) : Bool :=
  if !frames_loaded then false
  else
    let similarity_scores := ssim_score.toList ++ [hist_score] ++ template_score.toList
    match similarity_scores.max? with
    | some max_similarity => decide (max_similarity > threshold)
    | none => false

/-- C3 amended: comparing a frame with itself gives every enabled method its
maximum attainable score 1 (histogram correlation of identical histograms,
SSIM and peak template correlation of identical images); since the decision
is the STRICT comparison max(scores) > threshold, the self-comparison is
classified similar exactly at thresholds strictly below 1, and is classified
NOT similar at a threshold equal to the maximum attainable score.  This
holds for both scorers and for every combination of enabled optional
methods. -/
theorem self_similarity_iff_threshold_below_max (ssimOn tmplOn : Bool) (t : ℚ) :
    calculate_image_similarity true (if ssimOn then some 1 else none) 1
        (if tmplOn then some 1 else none) t = decide (t < 1) ∧
    calculate_frame_similarity true (if ssimOn then some 1 else none) 1
        (if tmplOn then some 1 else none) t = decide (t < 1) := by
  cases ssimOn <;> cases tmplOn <;>
    simp [calculate_image_similarity, calculate_frame_similarity,
      List.max?, max_self, gt_iff_lt]

/-- C3 counterexample: with all three methods enabled and the threshold
equal to the maximum attainable score 1, the self-comparison scores are all
1 yet both scorers classify the pair as NOT similar (strict comparison), so
"similar at every threshold ≤ the maximum" fails at equality. -/
theorem self_similarity_fails_at_max_threshold :
    calculate_image_similarity true (some 1) 1 (some 1) 1 = false ∧
    calculate_frame_similarity true (some 1) 1 (some 1) 1 = false :=
  ⟨by decide, by decide⟩

/-! ### Claim C7: the post-extraction frame filter -/

/-- Python slicing `l[::step]` for `step ≥ 1`: the elements whose index is a
multiple of the stride. -/
def everyNth {α : Type} (step : Nat) (l : List α) : List α :=
  (l.enum.filter (fun p => p.1 % step == 0)).map (fun p => p.2)

/-- One iteration of the primary loop of `filter_unique_frames`
(lines 786-809).  State: the unique frames selected so far and the index of
the last selected frame.  A frame closer than `min_frame_gap = 1` to the
last selection is skipped (vacuous at gap 1); otherwise it is compared
against the last three selected frames and kept when none is similar. -/
def filterUniqueStep (sim : String → String → ℚ → Bool) (frames_dir : String)
    (similarity_threshold : ℚ) (st : List String × Nat) (p : Nat × String) :
    List String × Nat :=
  if p.1 - st.2 < 1 then st
  else
    let current_path := frames_dir ++ "/" ++ p.2
    let recent_unique_frames :=
      if st.1.length > 3 then st.1.drop (st.1.length - 3) else st.1
    if recent_unique_frames.any
        (fun u => sim current_path (frames_dir ++ "/" ++ u) similarity_threshold)
    then st
    else (st.1 ++ [p.2], p.1)

/-- The primary path of `filter_unique_frames` (lines 768-820): always keep
the first frame, run the similarity loop over the remaining frames, and if
more than 12 frames survive, stride-subsample with `len // 12` and cap at
12.  The similarity decisions are supplied by the oracle `sim` (they depend
on pixel data). -/
def filter_unique_frames (sim : String → String → ℚ → Bool) (frames_dir : String)
    (frame_files : List String) (similarity_threshold : ℚ := 22/25) : List String :=
  match frame_files with
  | [] => []
  | f0 :: rest =>
    let unique_frames :=
      ((rest.enumFrom 1).foldl
        (filterUniqueStep sim frames_dir similarity_threshold) ([f0], 0)).1
    if unique_frames.length > 12 then
      let step := unique_frames.length / 12
      (everyNth step unique_frames).take 12
    else unique_frames

/-- The fallback path of `filter_unique_frames` (lines 822-837), entered
when the primary path raises: keep everything when at most five frames,
otherwise stride-sample with a band-dependent stride and cap at 12. -/
def filter_unique_frames_fallback (frame_files : List String) : List String :=
  let total_frames := frame_files.length
  if total_frames ≤ 5 then frame_files
  else
    let step := if total_frames ≤ 15 then 3
      else if total_frames ≤ 30 then 5
      else max 4 (total_frames / 12)
    (everyNth step frame_files).take 12

/-- The primary loop only ever appends, so the head of the selection is
preserved. -/
theorem filterUniqueLoop_head (sim : String → String → ℚ → Bool) (dir : String)
    (t : ℚ) (f0 : String) (l : List (Nat × String)) :
    ∀ (st : List String × Nat) (r0 : List String), st.1 = f0 :: r0 →
      ∃ r, (l.foldl (filterUniqueStep sim dir t) st).1 = f0 :: r := by
  induction l with
  | nil => exact fun st r0 h => ⟨r0, h⟩
  | cons p l ih =>
    intro st r0 h
    simp only [List.foldl_cons]
    have hh : ∃ r0', (filterUniqueStep sim dir t st p).1 = f0 :: r0' := by
      simp only [filterUniqueStep]
      repeat' split
      all_goals first
        | exact ⟨r0, h⟩
        | exact ⟨r0 ++ [p.2], by simp [h]⟩
    obtain ⟨r0', h'⟩ := hh
    exact ih _ r0' h'

/-- Stride sampling keeps the head of the list (index 0 is kept for every
stride, since 0 mod step = 0). -/
theorem everyNth_cons {α : Type} (step : Nat) (a : α) (l : List α) :
    ∃ r, everyNth step (a :: l) = a :: r := by
  refine ⟨((l.enumFrom 1).filter (fun p => p.1 % step == 0)).map (fun p => p.2), ?_⟩
  have h : (a :: l).enum = (0, a) :: l.enumFrom 1 := rfl
  simp [everyNth, h]

/-- Capping the stride-sampled list keeps the head and respects the cap. -/
theorem take12_everyNth (step : Nat) (f0 : String) (l : List String) :
    f0 ∈ ((everyNth step (f0 :: l)).take 12) ∧
    ((everyNth step (f0 :: l)).take 12).length ≤ 12 := by
  obtain ⟨r, hr⟩ := everyNth_cons step f0 l
  refine ⟨?_, List.length_take_le 12 _⟩
  rw [hr]
  exact List.mem_cons_self f0 _

/-- C7: for every non-empty ordered frame list, and every behaviour of the
pixel-level similarity oracle and every threshold, both the primary path and
the stride-sampling fallback path of `filter_unique_frames` return a list
that contains the first input frame, with at most 12 elements. -/
theorem filter_unique_caps_and_keeps_first (sim : String → String → ℚ → Bool)
    (frames_dir : String) (t : ℚ) (f0 : String) (rest : List String) :
    (f0 ∈ filter_unique_frames sim frames_dir (f0 :: rest) t ∧
     (filter_unique_frames sim frames_dir (f0 :: rest) t).length ≤ 12) ∧
    (f0 ∈ filter_unique_frames_fallback (f0 :: rest) ∧
     (filter_unique_frames_fallback (f0 :: rest)).length ≤ 12) := by
  constructor
  · obtain ⟨r, hr⟩ := filterUniqueLoop_head sim frames_dir t f0
      (rest.enumFrom 1) ([f0], 0) [] rfl
    simp only [filter_unique_frames, hr]
    split
    · exact take12_everyNth _ f0 r
    · rename_i hle
      refine ⟨List.mem_cons_self f0 r, ?_⟩
      omega
  · simp only [filter_unique_frames_fallback]
    split
    · rename_i h5
      refine ⟨List.mem_cons_self f0 rest, ?_⟩
      omega
    · exact take12_everyNth _ f0 rest

/-! ### JSON results

The scripts return Python dictionaries that are serialised as JSON; the
claims about result structure are stated over this value type. -/

/-- A JSON value. -/
inductive JVal where
  | null
  | jb (b : Bool)
  | jn (q : ℚ)
  | js (s : String)
  | ja (xs : List JVal)
  | jo (kvs : List (String × JVal))

/-- Key lookup in an association list, first match wins. -/
def jLookup (kvs : List (String × JVal)) (k : String) : Option JVal :=
  match kvs with
  | [] => none
  | (k', v) :: rest => if k' = k then some v else jLookup rest k

/-- Key lookup in a JSON value; `none` on non-objects. -/
def jGet (v : JVal) (k : String) : Option JVal :=
  match v with
  | .jo kvs => jLookup kvs k
  | _ => none

/-- Whether a JSON value is an object carrying the given key. -/
def hasKey (v : JVal) (k : String) : Bool := (jGet v k).isSome

/-! ### Claims C2 and C9 (extractor part): extract_frames_with_opencv

The loop walks the video at a fixed time step.  Everything pixel-level
(frame decoding, the quality gate's brightness/blur statistics, the motion
score of `detect_motion` against the last saved frame, the similarity
verdict of `calculate_frame_similarity` against the last saved frame, the
success of cv2.imwrite, the base64 payload) is environment-dependent, so
each candidate step carries an observation record.  The retention logic and
state threading (frame counter, the `skipped_frames` counter, the presence
of a last saved frame) is the repository's code. -/

/-- The environment-supplied observations for one candidate time step. -/
structure StepObs where
  readOk : Bool
  quality : Bool
  motionScore : ℚ
  similar : Bool
  writeOk : Bool
  b64 : String

/-- One extracted-frame record appended to `extracted_frames`
(extract_frames_opencv.py lines 223-230). -/
structure ExtractedFrame where
  time : String
  frame_number : Nat
  filename : String
  filepath : String
  image_base64 : String
  imageUrl : String
deriving DecidableEq, Repr

/-- The mutable loop state of `extract_frames_with_opencv`. -/
structure ExtractState where
  frame_count : Nat
  skipped_frames : Nat
  haveLast : Bool
  extracted_frames : List ExtractedFrame
deriving DecidableEq, Repr

/-- One iteration of the extraction loop (lines 158-241) at time
`current_time`: skip on read failure or a failed quality gate; otherwise
keep when there is no prior saved frame, or the motion score exceeds the
fixed 800 threshold, or the frame is dissimilar; a similar frame is kept
exactly when `skipped_frames % 3 == 2` (the counter is incremented only
when a similar frame is skipped, and left unchanged when one is kept).
A successful save appends the frame record, advances the counter and makes
the saved frame the comparison target; a failed imwrite changes nothing. -/
def extractStep (output_dir : String) (obs : StepObs) (current_time : ℚ)
    (st : ExtractState) : ExtractState :=
  if !obs.readOk then st
  else if !obs.quality then st
  else
    let decision : Bool × Nat :=
      if !st.haveLast then (true, st.skipped_frames)
      else if obs.motionScore > 800 then (true, st.skipped_frames)
      else if obs.similar then
        (if st.skipped_frames % 3 == 2 then (true, st.skipped_frames)
         else (false, st.skipped_frames + 1))
      else (true, st.skipped_frames)
    if decision.1 then
      let q := (⌊current_time⌋).toNat
      let minutes := q / 60
      let seconds := q % 60
      let timestamp := pad2 minutes ++ "m" ++ pad2 seconds ++ "s"
      let filename := "frame_" ++ toString st.frame_count ++ "_" ++ timestamp ++ ".jpg"
      if obs.writeOk then
        { frame_count := st.frame_count + 1
          skipped_frames := decision.2
          haveLast := true
          extracted_frames := st.extracted_frames ++
            [{ time := pad2 minutes ++ ":" ++ pad2 seconds
               frame_number := st.frame_count
               filename := filename
               filepath := output_dir ++ "/" ++ filename
               image_base64 := obs.b64
               imageUrl := "/temp/" ++ filename }] }
      else { st with skipped_frames := decision.2 }
    else { st with skipped_frames := decision.2 }

/-- The video-source environment of one extraction run. -/
structure VideoEnv where
  opened : Bool
  fps : ℚ
  total_frames : Nat
  obs : Nat → StepObs

/-- Embeds `duration = total_frames / fps if fps > 0 else 0` (line 145). -/
def videoDuration (env : VideoEnv) : ℚ :=
  if env.fps > 0 then (env.total_frames : ℚ) / env.fps else 0

/-- The number of loop iterations: candidate times are 0, interval,
2 interval, ... strictly below the duration, so for a positive interval the
loop runs ceil(duration/interval) times.  (For a non-positive interval the
source would not terminate; every caller passes the default 1.) -/
def extractIterations (env : VideoEnv) (frame_interval : ℚ) : Nat :=
  if 0 < frame_interval then (⌈videoDuration env / frame_interval⌉).toNat else 0

/-- The extraction loop of `extract_frames_with_opencv` (lines 151-241),
folding `extractStep` over the candidate time steps. -/
def extract_core (env : VideoEnv) (output_dir : String) (frame_interval : ℚ) :
    ExtractState :=
  (List.range (extractIterations env frame_interval)).foldl
    (fun st k => extractStep output_dir (env.obs k) ((k : ℚ) * frame_interval) st)
    ⟨0, 0, false, []⟩

/-- JSON encoding of one extracted-frame record. -/
def ExtractedFrame.toJVal (f : ExtractedFrame) : JVal :=
  .jo [("time", .js f.time), ("frame_number", .jn f.frame_number),
       ("filename", .js f.filename), ("filepath", .js f.filepath),
       ("image_base64", .js f.image_base64), ("imageUrl", .js f.imageUrl)]

/-- Embeds `extract_frames_with_opencv` (lines 131-268): the failure of
cv2.VideoCapture raises inside the try block and the handler returns the
error object; otherwise the loop runs and the success object is returned
(the oracles are total, so no other exception path is reachable in the
embedding). -/
def extract_frames_with_opencv (env : VideoEnv) (_video_path output_dir : String)
    (frame_interval : ℚ := 1) (similarity_threshold : ℚ := 7/10) : JVal :=
  if !env.opened then
    .jo [("success", .jb false), ("error", .js "Could not open video file"),
         ("frames", .ja [])]
  else
    let final := extract_core env output_dir frame_interval
    .jo [("success", .jb true),
         ("frames", .ja (final.extracted_frames.map ExtractedFrame.toJVal)),
         ("total_frames_extracted", .jn final.frame_count),
         ("frames_skipped", .jn final.skipped_frames),
         ("similarity_threshold", .jn similarity_threshold),
         ("video_info", .jo
           [("duration", .jn (videoDuration env)), ("fps", .jn env.fps),
            ("total_frames", .jn env.total_frames),
            ("frame_interval", .jn frame_interval),
            ("method", .js "opencv_with_similarity")])]

/-- C2: evaluation of the extractor's retention logic on a five-second
static video (one candidate per second; every candidate readable, of
acceptable quality, writable, with motion score 0 and judged similar to the
last saved frame).  The first candidate is kept (no prior frame); of the
four consecutive similar candidates the first two are skipped
(skipped_frames reaches 2), the third is kept, AND THE FOURTH IS KEPT TOO:
because the counter is not incremented or reset on a periodic save it stays
at 2, so after the first periodic save EVERY further similar candidate is
kept — the claimed skip-skip-keep cycle never restarts, contradicting the
source's own comment "Save every 3rd similar frame" (line 197). -/
theorem extract_similar_cadence_code_behavior :
    ((extract_core ⟨true, 1, 5, fun _ => ⟨true, true, 0, true, true, ""⟩⟩
        "out" 1).extracted_frames.map (fun f => f.time))
      = ["00:00", "00:03", "00:04"] ∧
    (extract_core ⟨true, 1, 5, fun _ => ⟨true, true, 0, true, true, ""⟩⟩
        "out" 1).skipped_frames = 2 :=
  ⟨by decide, by decide⟩

/-! ### Claims C4 and C9 (analyzer part): the batch orchestrator and
analyze_frames_with_openrouter

The OpenRouter network call is external: each batch call's outcome enters
the embedding as a `NetOutcome`.  The request construction (system prompt,
images, YOLO context text) only affects the external service, so it is not
modelled; the response handling is the repository's code.  The YOLO
detections per frame are likewise environment inputs (they are the output
of `detect_objects_with_yolo`, whose internal filtering logic is embedded
separately above). -/

/-- Python `s.replace(kw, repl)` for arbitrary patterns, non-overlapping
left-to-right; structural on a fuel equal to the string length. -/
def pyReplaceList (kw repl : List Char) : Nat → List Char → List Char
  | 0, l => l
  | _, [] => []
  | Nat.succ f, c :: rest =>
    if kw ≠ [] ∧ kw.isPrefixOf (c :: rest) then
      repl ++ pyReplaceList kw repl f ((c :: rest).drop kw.length)
    else c :: pyReplaceList kw repl f rest

/-- Python `s.replace(kw, repl)`. -/
def pyReplace (s kw repl : String) : String :=
  String.mk (pyReplaceList kw.toList repl.toList s.toList.length s.toList)

/-- Python `s.title()`: uppercase each letter that starts an alphabetic run,
lowercase the other letters. -/
def pyTitle (s : String) : String :=
  String.mk ((s.toList.foldl (fun (acc : List Char × Bool) c =>
    if c.isAlpha then (acc.1 ++ [if acc.2 then c.toLower else c.toUpper], true)
    else (acc.1 ++ [c], false)) ([], false)).1)

/-- Code-point lexicographic comparison of character lists, Python's
string `<=`. -/
def lexLe : List Char → List Char → Bool
  | [], _ => true
  | _ :: _, [] => false
  | a :: as, b :: bs => if a < b then true else if b < a then false else lexLe as bs

/-- Stable insertion of a string into an ascending list, after equal
elements. -/
def insertSorted (a : String) : List String → List String
  | [] => [a]
  | b :: rest =>
    if lexLe b.toList a.toList then b :: insertSorted a rest else a :: b :: rest

/-- Python `list.sort()` on strings: stable ascending lexicographic sort
(insertion sort has the same semantics). -/
def pySort (l : List String) : List String :=
  l.foldl (fun acc a => insertSorted a acc) []

/-- One safety issue of a frame detail, with exactly the keys the pipeline
reads (`type`, `severity`, `description`, `gridCells`,
`mitigationStrategy`); each is optional because the source reads them with
`dict.get` defaults. -/
structure SafetyIssue where
  itype : Option String
  severity : Option String
  description : Option String
  gridCells : Option String
  mitigationStrategy : Option String

/-- One per-frame entry of a parsed batch response, with the keys the
pipeline reads; `recommendedActions` is copied through verbatim, so it is
kept as raw JSON. -/
structure FrameDetail where
  frameIndex : Nat
  timestamp : String
  detailedObservations : String
  safetyIssues : List SafetyIssue
  pathwayClearance : String
  emergencyAccess : String
  recommendedActions : List JVal

/-- A parsed batch response object (the orchestrator reads only
`frameDetails`). -/
structure BatchAnalysis where
  incorrectParking : Bool
  wasteMaterial : Bool
  overallExplanation : String
  frameDetails : List FrameDetail

/-- The outcome of one OpenRouter POST: the fixed-timeout call can raise
requests.exceptions.Timeout, raise another exception, or return a response;
a 200 response's message content either parses as a batch object or raises
in json.loads. -/
inductive NetOutcome where
  | timeout (msg : String)
  | raised (msg : String)
  | response (status_code : Nat) (text : String)
      (content : BatchAnalysis ⊕ String)

/-- The result dictionary of `analyze_batch_with_openrouter`. -/
inductive BatchCallResult where
  | success (analysis : BatchAnalysis)
  | failure (error : String)

/-- Embeds `analyze_batch_with_openrouter` (analyze_frames_openrouter.py lines
885-1060).  The whole body sits in try/except Exception (line 1056), so a
timeout of the 120-second call — like every other exception, including a
json.loads failure — is caught THERE and returned as this batch's failure
dictionary; a non-200 response is returned as a failure with the status
code and text (line 1032). -/
def analyze_batch_with_openrouter (net : NetOutcome) : BatchCallResult :=
  match net with
  | .timeout msg => .failure ("Batch analysis error: " ++ msg)
  | .raised msg => .failure ("Batch analysis error: " ++ msg)
  | .response status_code text content =>
    if status_code ≠ 200 then
      .failure ("OpenRouter API error: " ++ toString status_code ++ " - " ++ text)
    else
      match content with
      | .inl ai_analysis => .success ai_analysis
      | .inr msg => .failure ("Batch analysis error: " ++ msg)

/-- One loaded frame record of `frames_data` (lines 1145-1150). -/
structure FrameData where
  filename : String
  timestamp : String
  image_base64 : String
  original_index : Nat

/-- Embeds `process_frames_in_batches` (lines 839-883): YOLO detections are
gathered per frame when available, the frames are processed in fixed-size
batches strictly in order, a failed batch (failure result or exception) is
skipped and processing continues, and the frame details of successful
batches are concatenated. -/
def process_frames_in_batches (frames_data : List FrameData) (batch_size : Nat)
    (hasYolo : Bool) (yolo : String → List Detection) (frames_dir : String)
    (net : Nat → NetOutcome) : List FrameDetail × List (List Detection) :=
  let all_yolo_detections :=
    if hasYolo && decide (frames_dir ≠ "") then
      frames_data.map (fun fd => yolo (frames_dir ++ "/" ++ fd.filename))
    else frames_data.map (fun _ => [])
  let total_batches := (frames_data.length + batch_size - 1) / batch_size
  let all_frame_details := (List.range total_batches).foldl
    (fun acc batch_num =>
      match analyze_batch_with_openrouter (net batch_num) with
      | .success a => acc ++ a.frameDetails
      | .failure _ => acc) []
  (all_frame_details, all_yolo_detections)

/-- The environment of one `analyze_frames_with_openrouter` run: the cached
analysis (when the dataset directory holds a parseable analysis.json), the
directory listing, the file loader, the pixel-level similarity oracle, the
YOLO availability flag and per-frame detector output, and the per-batch
network outcomes. -/
structure AnalyzeEnv where
  cached : Option JVal
  dirListing : List String
  fileLoad : String → Option String
  sim : String → String → ℚ → Bool
  hasYolo : Bool
  yolo : String → List Detection
  net : Nat → NetOutcome

/-- The frame file discovery of lines 1104-1109: keep names that start with
"frame_" and end with ".jpg", sorted. -/
def frame_files_of (env : AnalyzeEnv) : List String :=
  pySort (env.dirListing.filter
    (fun f => pyStartsWith f "frame_" && pyEndsWith f ".jpg"))

/-- The frame selection of lines 1122-1129: the similarity filter at
threshold 0.88, then, if more than 15 frames survive, extra stride sampling
with `max 2 (len // 10)` capped at 10. -/
def unique_frame_files_of (env : AnalyzeEnv) (frames_dir : String) : List String :=
  let u := filter_unique_frames env.sim frames_dir (frame_files_of env) (22/25)
  if u.length > 15 then
    (everyNth (max 2 (u.length / 10)) u).take 10
  else u

/-- The frame loading of lines 1132-1156: each unique frame is read (the
loader returns the base64 payload, or `none` when the read raises, in which
case that frame is skipped); the timestamp is the third underscore field of
the name with ".jpg" removed, defaulting to "00:00". -/
def frames_data_of (env : AnalyzeEnv) (frames_dir : String) : List FrameData :=
  (unique_frame_files_of env frames_dir).enum.filterMap (fun p =>
    match env.fileLoad (frames_dir ++ "/" ++ p.2) with
    | none => none
    | some image_base64 =>
      let parts := splitOnChar '_' (pyReplace p.2 ".jpg" "")
      let timestamp := if parts.length > 2 then parts.getD 2 "00:00" else "00:00"
      some ⟨p.2, timestamp, image_base64, p.1⟩)

/-- Python `issue.get("type") in [...]` (a missing key is None, which is in
no list). -/
def issueTypeIn (i : SafetyIssue) (ts : List String) : Bool :=
  match i.itype with
  | some t => ts.contains t
  | none => false

/-- The AI bounding box built from one safety issue (lines 1210-1224). -/
def aiBoxOf (issue : SafetyIssue) : JVal :=
  let bbox_coords := convert_grid_cells_to_bounding_box (issue.gridCells.getD "")
  .jo [("label", .js ("AI: " ++ issue.itype.getD "hazard" ++ ": "
          ++ pyTake (issue.description.getD "") 40 ++ "...")),
       ("x", .jn bbox_coords.x), ("y", .jn bbox_coords.y),
       ("w", .jn bbox_coords.w), ("h", .jn bbox_coords.h),
       ("source", .js "ai_analysis"),
       ("severity", .js (issue.severity.getD "medium")),
       ("mitigation", .js (issue.mitigationStrategy.getD
          "No specific mitigation provided"))]

/-- The YOLO hazard bounding box built from one critical detection
(lines 1236-1251). -/
def yoloBoxOf (d : Detection) : JVal :=
  let severity_info := assess_hazard_severity d.class_name d.confidence d.bbox
  .jo [("label", .js (pyTitle d.class_name ++ " - " ++ pyUpper severity_info.severity)),
       ("x", .jn d.bbox.x), ("y", .jn d.bbox.y),
       ("w", .jn d.bbox.w), ("h", .jn d.bbox.h),
       ("source", .js "yolo_detection"),
       ("confidence", .jn d.confidence),
       ("safety_category", .js d.safety_category),
       ("severity", .js severity_info.severity),
       ("reason", .js severity_info.reason),
       ("priority", .jn severity_info.priority),
       ("immediate_action", .jb severity_info.immediate_action),
       ("hazard_type", .js "pathway_obstruction"),
       ("mitigation_summary", .js (if severity_info.immediate_action
          then "Remove " ++ d.class_name ++ " from pathway immediately"
          else "Relocate " ++ d.class_name ++ " to designated area"))]

/-- The accumulator of the per-frame-detail loop (lines 1174-1270). -/
structure ProcessAcc where
  parking : Bool
  waste : Bool
  explanations : List String
  processed : List JVal

/-- The per-frame-detail loop (lines 1181-1270): a frame detail whose
frameIndex matches no loaded frame contributes nothing; otherwise its
safety issues update the two global flags (parking for types
parking/vehicle, else waste for types waste/debris), append explanations,
and yield one AI box each, followed by one box per hazard-classified YOLO
detection of that frame, all collected into the frame object. -/
def processDetails (frames_data : List FrameData)
    (all_yolo_detections : List (List Detection))
    (all_frame_details : List FrameDetail) : ProcessAcc :=
  all_frame_details.enum.foldl (fun st p =>
    let frame_idx := p.1
    let fd := p.2
    match frames_data.find? (fun f => f.original_index == fd.frameIndex) with
    | none => st
    | some corresponding_frame =>
      let frame_yolo := if frame_idx < all_yolo_detections.length
        then all_yolo_detections.getD frame_idx [] else []
      let flags := fd.safetyIssues.foldl (fun (fl : Bool × Bool) issue =>
        if issueTypeIn issue ["parking", "vehicle"] then (true, fl.2)
        else if issueTypeIn issue ["waste", "debris"] then (fl.1, true)
        else fl) (st.parking, st.waste)
      let explanations := st.explanations ++ fd.safetyIssues.map (fun issue =>
        "Frame " ++ toString fd.frameIndex ++ ": " ++ issue.description.getD "")
      let bounding_boxes := fd.safetyIssues.map aiBoxOf ++
        (frame_yolo.filter (fun d =>
          is_critical_safety_hazard d.class_name d.confidence d.bbox)).map yoloBoxOf
      let frame_obj : JVal := .jo [
        ("time", .js fd.timestamp),
        ("imageUrl", .js ("/temp/" ++ corresponding_frame.filename)),
        ("filename", .js corresponding_frame.filename),
        ("boundingBoxes", .ja bounding_boxes),
        ("yolo_detections", .jn frame_yolo.length),
        ("ai_issues", .jn fd.safetyIssues.length),
        ("frame_analysis", .jo [
          ("detailed_observations", .js fd.detailedObservations),
          ("pathway_clearance", .js fd.pathwayClearance),
          ("emergency_access", .js fd.emergencyAccess),
          ("recommended_actions", .ja fd.recommendedActions)])]
      ⟨flags.1, flags.2, explanations, st.processed ++ [frame_obj]⟩)
    ⟨false, false, [], []⟩

/-- JSON encoding of one safety issue (only keys that are present). -/
def SafetyIssue.toJVal (i : SafetyIssue) : JVal :=
  .jo ((match i.itype with | some t => [("type", JVal.js t)] | none => []) ++
       (match i.severity with | some t => [("severity", JVal.js t)] | none => []) ++
       (match i.description with | some t => [("description", JVal.js t)] | none => []) ++
       (match i.gridCells with | some t => [("gridCells", JVal.js t)] | none => []) ++
       (match i.mitigationStrategy with
        | some t => [("mitigationStrategy", JVal.js t)] | none => []))

/-- JSON encoding of one frame detail (the modelled keys of the parsed
response object, returned verbatim in the result). -/
def FrameDetail.toJVal (fd : FrameDetail) : JVal :=
  .jo [("frameIndex", .jn fd.frameIndex), ("timestamp", .js fd.timestamp),
       ("detailedObservations", .js fd.detailedObservations),
       ("safetyIssues", .ja (fd.safetyIssues.map SafetyIssue.toJVal)),
       ("pathwayClearance", .js fd.pathwayClearance),
       ("emergencyAccess", .js fd.emergencyAccess),
       ("recommendedActions", .ja fd.recommendedActions)]

/-- JSON encoding of one mitigation record. -/
def Mitigation.toJVal (m : Mitigation) : JVal :=
  .jo ([("type", JVal.js m.type), ("severity", JVal.js m.severity),
        ("urgency", JVal.js m.urgency), ("description", JVal.js m.description),
        ("specific_risks", JVal.ja (m.specific_risks.map JVal.js)),
        ("mitigation_steps", JVal.ja (m.mitigation_steps.map JVal.js)),
        ("timeline", JVal.js m.timeline),
        ("responsible_party", JVal.js m.responsible_party),
        ("estimated_cost", JVal.js m.estimated_cost),
        ("emergency_impact", JVal.js m.emergency_impact)] ++
       (match m.compliance with
        | some c => [("compliance", JVal.js c)] | none => []))

/-- The successful result object of `analyze_frames_with_openrouter`
(lines 1166-1321), built from the batch results, the per-frame loop, the
mitigation synthesis and the statistics.  The dataset persistence that
follows (lines 1381-1444) is a side effect that does not change the
returned object. -/
def analyze_main_result (frames_dir : String) (env : AnalyzeEnv) : JVal :=
  let frame_files := frame_files_of env
  let unique_frame_files := unique_frame_files_of env frames_dir
  let frames_data := frames_data_of env frames_dir
  let batch_size := min 3 (max 1 (frames_data.length / 2))
  let pr := process_frames_in_batches frames_data batch_size env.hasYolo env.yolo
    frames_dir env.net
  let all_frame_details := pr.1
  let all_yolo_detections := pr.2
  let acc := processDetails frames_data all_yolo_detections all_frame_details
  let flat_yolo_detections := all_yolo_detections.flatten
  let comprehensive_mitigations := generate_mitigation_strategies
    flat_yolo_detections ⟨acc.parking, acc.waste⟩
  let combined_explanation := if acc.explanations.isEmpty then
      "Analyzed " ++ toString frames_data.length
        ++ " unique frames - no safety violations detected."
    else
      "Comprehensive analysis of " ++ toString frames_data.length
        ++ " unique frames using combined YOLO object detection and AI grid-based analysis (filtered from "
        ++ toString frame_files.length ++ " total frames). "
        ++ joinWith "; " acc.explanations
  let total_yolo_objects := flat_yolo_detections.length
  let total_hazardous_objects :=
    (flat_yolo_detections.filter (fun d => d.potential_hazard)).length
  let total_ai_issues :=
    (all_frame_details.map (fun fd => fd.safetyIssues.length)).sum
  let frames_with_issues := (acc.processed.filter (fun f =>
    match jGet f "boundingBoxes" with
    | some (.ja bs) => bs.length > 0
    | _ => false)).length
  .jo [("success", .jb true),
       ("analysis", .jo [
          ("incorrectParking", .jb acc.parking),
          ("wasteMaterial", .jb acc.waste),
          ("explanation", .js combined_explanation),
          ("frameDetails", .ja (all_frame_details.map FrameDetail.toJVal)),
          ("frames", .ja acc.processed),
          ("mitigationStrategies", .ja (comprehensive_mitigations.map Mitigation.toJVal)),
          ("violations", .ja []),
          ("statistics", .jo [
            ("total_frames_analyzed", .jn frames_data.length),
            ("total_yolo_objects", .jn total_yolo_objects),
            ("total_hazardous_objects", .jn total_hazardous_objects),
            ("total_ai_safety_issues", .jn total_ai_issues),
            ("frames_with_issues", .jn frames_with_issues)])]),
       ("frames_analyzed", .jn frames_data.length),
       ("total_frames", .jn frame_files.length),
       ("unique_frames", .jn unique_frame_files.length),
       ("similarity_filtered", .jn (frame_files.length - unique_frame_files.length)),
       ("yolo_detections", .jn total_yolo_objects),
       ("hazardous_objects", .jn total_hazardous_objects),
       ("method", .js "Enhanced Detection (Vision + Grid Analysis)"),
       ("detection_methods", .jo [
         ("yolo_available", .jb env.hasYolo),
         ("ai_grid_analysis", .jb true),
         ("similarity_filtering", .jb true)])]

/-- Embeds `analyze_frames_with_openrouter` (lines 1062-1472).  The dataset root
always defaults to "datasets", so the cache lookup always happens: a
readable, parseable cached analysis.json is returned VERBATIM (line 1100),
whatever it contains.  Otherwise: no frame files gives the first error
object; no loadable frames gives the second; otherwise the main result.
The oracles are total, so the four except handlers at lines 1449-1472 are
unreachable in the embedding (each would also return an object with
`success := false` and an `error` string). -/
def analyze_frames_with_openrouter (frames_dir : String)
    (_api_key _job_id : String) (env : AnalyzeEnv) : JVal :=
  match env.cached with
  | some cached => cached
  | none =>
    let frame_files := frame_files_of env
    if frame_files.isEmpty then
      .jo [("success", .jb false),
           ("error", .js "No frame files found in directory"),
           ("frames_checked", .jn 0)]
    else
      let frames_data := frames_data_of env frames_dir
      if frames_data.isEmpty then
        .jo [("success", .jb false),
             ("error", .js "No frames could be loaded for analysis"),
             ("frames_checked", .jn frame_files.length),
             ("unique_frames", .jn (unique_frame_files_of env frames_dir).length)]
      else analyze_main_result frames_dir env

/-- The batch loop accumulates by appending, so it equals the concatenation
of the successful batches' frame details. -/
theorem batch_foldl_eq_flatten (net : Nat → NetOutcome) (l : List Nat) :
    ∀ acc : List FrameDetail,
      l.foldl (fun acc batch_num =>
        match analyze_batch_with_openrouter (net batch_num) with
        | .success a => acc ++ a.frameDetails
        | .failure _ => acc) acc
      = acc ++ (l.map (fun i =>
          match analyze_batch_with_openrouter (net i) with
          | .success a => a.frameDetails
          | .failure _ => [])).flatten := by
  induction l with
  | nil => intro acc; simp
  | cons i l ih =>
    intro acc
    simp only [List.foldl_cons, List.map_cons, List.flatten_cons]
    cases hnet : analyze_batch_with_openrouter (net i) with
    | success a => rw [ih]; simp [List.append_assoc]
    | failure e => rw [ih]; simp

/-- C4 amended: a timeout of the fixed-120-second OpenRouter call is caught
inside `analyze_batch_with_openrouter` by its catch-all handler and
reported as THAT BATCH's failure dictionary; `process_frames_in_batches`
skips the failed batch and keeps every other batch's frame details (its
output is exactly the concatenation over batches of the successful
responses' details, for every pattern of network outcomes); and the overall
run still returns a result object with success = true whenever any frame
was found and loaded, regardless of the network outcomes — a timeout is
batch-local, not a terminal failure of the run. -/
theorem batch_timeout_is_batch_local :
    (∀ msg : String, analyze_batch_with_openrouter (.timeout msg)
        = .failure ("Batch analysis error: " ++ msg)) ∧
    (∀ (frames_data : List FrameData) (batch_size : Nat) (hasYolo : Bool)
        (yolo : String → List Detection) (frames_dir : String)
        (net : Nat → NetOutcome),
      (process_frames_in_batches frames_data batch_size hasYolo yolo frames_dir net).1
        = ((List.range ((frames_data.length + batch_size - 1) / batch_size)).map
            (fun i => match analyze_batch_with_openrouter (net i) with
              | .success a => a.frameDetails
              | .failure _ => [])).flatten) ∧
    (∀ (frames_dir api_key job_id : String) (env : AnalyzeEnv),
      env.cached = none → (frame_files_of env).isEmpty = false →
      (frames_data_of env frames_dir).isEmpty = false →
      jGet (analyze_frames_with_openrouter frames_dir api_key job_id env) "success"
        = some (.jb true)) := by
  refine ⟨fun msg => rfl, ?_, ?_⟩
  · intro frames_data batch_size hasYolo yolo frames_dir net
    simp only [process_frames_in_batches]
    exact batch_foldl_eq_flatten net _ []
  · intro frames_dir api_key job_id env hc h1 h2
    simp only [analyze_frames_with_openrouter, hc, h1, h2]
    simp [analyze_main_result, jGet, jLookup]

/-- A frame detail as delivered by one successful demo batch. -/
def demoFrameDetail : FrameDetail := ⟨1, "00m01s", "", [], "", "", []⟩

/-- A demo analyzer environment: no cache, two frame files that load, a
similarity oracle that never matches, no YOLO, and a network in which the
FIRST batch call times out while the second succeeds with one frame
detail. -/
def demoEnv : AnalyzeEnv where
  cached := none
  dirListing := ["frame_0_00m00s.jpg", "frame_1_00m01s.jpg"]
  fileLoad := fun _ => some "x"
  sim := fun _ _ _ => false
  hasYolo := false
  yolo := fun _ => []
  net := fun i => if i = 0 then .timeout "Read timed out. (read timeout=120)"
    else .response 200 "" (.inl ⟨false, false, "", [demoFrameDetail]⟩)

/-- C4 counterexample: in the demo run the two loaded frames make two
batches of size 1; the first batch call TIMES OUT, yet the second batch's
frame details survive and the whole run returns success = true with an
analysis payload — the timeout did not surface as a terminal failure of
the run, contradicting the claim. -/
theorem batch_timeout_not_terminal_example :
    (process_frames_in_batches (frames_data_of demoEnv "frames") 1 false
        demoEnv.yolo "frames" demoEnv.net).1 = [demoFrameDetail] ∧
    jGet (analyze_frames_with_openrouter "frames" "key" "job" demoEnv) "success"
      = some (.jb true) ∧
    hasKey (analyze_frames_with_openrouter "frames" "key" "job" demoEnv) "analysis"
      = true :=
  ⟨rfl, rfl, rfl⟩

/-- Witness for C4 at the demo environment: the run-level part of the
amended claim applied to the demo run whose first batch times out. -/
theorem batch_timeout_is_batch_local_witness :
    jGet (analyze_frames_with_openrouter "frames" "key" "job" demoEnv) "success"
      = some (.jb true) :=
  batch_timeout_is_batch_local.2.2 "frames" "key" "job" demoEnv rfl
    (by decide) (by decide)

/-- C9 amended: with the cache-hit path set aside (it returns the cached
JSON verbatim, line 1100), every path of `analyze_frames_with_openrouter`
returns an object carrying "success", with an "analysis" payload when
success is true and an "error" string when it is false; and every path of
`extract_frames_with_opencv` (for a positive frame interval, which every
caller uses) returns an object carrying "success", with the frames payload
under the key "frames" — not "analysis" — when success is true, and an
"error" string when it is false.  Both embeddings are total functions: no
execution path raises. -/
theorem structured_result_envelope :
    (∀ (frames_dir api_key job_id : String) (env : AnalyzeEnv),
      env.cached = none →
      hasKey (analyze_frames_with_openrouter frames_dir api_key job_id env)
          "success" = true ∧
      (jGet (analyze_frames_with_openrouter frames_dir api_key job_id env)
          "success" = some (.jb true) →
        hasKey (analyze_frames_with_openrouter frames_dir api_key job_id env)
          "analysis" = true) ∧
      (jGet (analyze_frames_with_openrouter frames_dir api_key job_id env)
          "success" = some (.jb false) →
        ∃ s, jGet (analyze_frames_with_openrouter frames_dir api_key job_id env)
          "error" = some (.js s))) ∧
    (∀ (env : VideoEnv) (video_path output_dir : String)
        (frame_interval similarity_threshold : ℚ), 0 < frame_interval →
      hasKey (extract_frames_with_opencv env video_path output_dir
          frame_interval similarity_threshold) "success" = true ∧
      (jGet (extract_frames_with_opencv env video_path output_dir
          frame_interval similarity_threshold) "success" = some (.jb true) →
        hasKey (extract_frames_with_opencv env video_path output_dir
          frame_interval similarity_threshold) "frames" = true) ∧
      (jGet (extract_frames_with_opencv env video_path output_dir
          frame_interval similarity_threshold) "success" = some (.jb false) →
        ∃ s, jGet (extract_frames_with_opencv env video_path output_dir
          frame_interval similarity_threshold) "error" = some (.js s))) := by
  constructor
  · intro frames_dir api_key job_id env hc
    simp only [analyze_frames_with_openrouter, hc]
    split
    · refine ⟨by simp [hasKey, jGet, jLookup], ?_, ?_⟩
      · intro h
        simp [jGet, jLookup] at h
      · intro _
        exact ⟨"No frame files found in directory", by simp [jGet, jLookup]⟩
    · split
      · refine ⟨by simp [hasKey, jGet, jLookup], ?_, ?_⟩
        · intro h
          simp [jGet, jLookup] at h
        · intro _
          exact ⟨"No frames could be loaded for analysis", by simp [jGet, jLookup]⟩
      · refine ⟨by simp [hasKey, analyze_main_result, jGet, jLookup], ?_, ?_⟩
        · intro _
          simp [hasKey, analyze_main_result, jGet, jLookup]
        · intro h
          simp [analyze_main_result, jGet, jLookup] at h
  · intro env video_path output_dir frame_interval similarity_threshold _
    simp only [extract_frames_with_opencv]
    split
    · refine ⟨by simp [hasKey, jGet, jLookup], ?_, ?_⟩
      · intro h
        simp [jGet, jLookup] at h
      · intro _
        exact ⟨"Could not open video file", by simp [jGet, jLookup]⟩
    · refine ⟨by simp [hasKey, jGet, jLookup], ?_, ?_⟩
      · intro _
        simp [hasKey, jGet, jLookup]
      · intro h
        simp [jGet, jLookup] at h

/-- C9 counterexample: a successful one-frame extraction returns an object
whose "success" is true but which has NO "analysis" key (its payload lives
under "frames"), so the claim that every success carries an "analysis"
payload fails on `extract_frames_with_opencv`. -/
theorem extract_success_lacks_analysis_payload :
    jGet (extract_frames_with_opencv
        ⟨true, 1, 1, fun _ => ⟨true, true, 0, true, true, ""⟩⟩
        "video.mp4" "out" 1 (7/10)) "success" = some (.jb true) ∧
    jGet (extract_frames_with_opencv
        ⟨true, 1, 1, fun _ => ⟨true, true, 0, true, true, ""⟩⟩
        "video.mp4" "out" 1 (7/10)) "analysis" = none ∧
    hasKey (analyze_frames_with_openrouter "frames" "key" "job"
        ⟨some (.js "stale cached payload"), [], fun _ => none,
         fun _ _ _ => false, false, fun _ => [], fun _ => .timeout ""⟩)
      "success" = false :=
  ⟨rfl, rfl, rfl⟩

/-- Witness for C9 at concrete environments: the analyzer demo run (cache
miss discharged) and a one-frame extraction (positive interval
discharged). -/
theorem structured_result_envelope_witness :
    hasKey (analyze_frames_with_openrouter "frames" "key" "job" demoEnv)
      "success" = true ∧
    hasKey (extract_frames_with_opencv
        ⟨true, 1, 1, fun _ => ⟨true, true, 0, true, true, ""⟩⟩
        "video.mp4" "out" 1 (7/10)) "success" = true :=
  ⟨(structured_result_envelope.1 "frames" "key" "job" demoEnv rfl).1,
   (structured_result_envelope.2
      ⟨true, 1, 1, fun _ => ⟨true, true, 0, true, true, ""⟩⟩
      "video.mp4" "out" 1 (7/10) (by decide)).1⟩

end AIVideoAnalyzer
